import Mathlib

/-!
Shallow embedding of the RAG_Thiago essay-correction pipeline.

Sources modelled (paths relative to the repository root):
* `app/database/rag_manager.py` — embedding generation, vector search with
  exhaustive-scan fallback, cosine similarity, embedding upsert, RAG enrichment;
* `app/utils/ia_agent.py` — scoring client with tenacity retry decorators;
* `app/api/main.py` — the asynchronous pipeline `processar_redacao_async`;
* `app/database/repositories.py` — the repository methods actually defined.

Conventions: Python floats are modelled as `ℚ` where the code only moves them
around, and as `ℝ` where `numpy` takes a square root (cosine scores); Python
strings that are sliced or measured are modelled as `List Char`; Python
exceptions are modelled with `Except PyErr`; MongoDB collections are modelled
as in-memory lists in insertion order.  Runtime errors that Python raises for
names and attributes that do not exist (`NameError`, `AttributeError`) are
modelled faithfully as raised exceptions, with a doc comment at each site
citing the evidence in the source.
-/

namespace RagThiago

/-- Python exception kinds relevant to the modelled code. -/
inductive PyErr where
  | attributeError
  | nameError
  | typeError
  | valueError
  | apiError
  | retryError
  deriving DecidableEq, Repr

/-! ### Vector arithmetic (`rag_manager._cosine_similarity`, lines 220-232)

`np.dot` on two 1-D arrays is the inner product and raises `ValueError` when
the lengths differ; `np.linalg.norm` is the square root of the sum of squares.
The guard `norm_vec1 == 0 or norm_vec2 == 0` is evaluated only after the dot
product has been computed, exactly as in the source. -/

/-- Sum of squares of a vector, the square of `np.linalg.norm`. -/
def sum_sq (v : List ℚ) : ℚ := (v.map (fun x => x * x)).sum

/-- `np.linalg.norm`: square root of the sum of squares. -/
noncomputable def vec_norm (v : List ℚ) : ℝ := Real.sqrt ((sum_sq v : ℚ) : ℝ)

/-- `np.dot` on 1-D arrays: raises `ValueError` on mismatched lengths,
otherwise the inner product. -/
def np_dot (v1 v2 : List ℚ) : Except PyErr ℚ :=
  if v1.length = v2.length then
    .ok ((List.zipWith (fun a b => a * b) v1 v2).sum)
  else
    .error .valueError

section
open Classical

/-- `RAGManager._cosine_similarity` (rag_manager.py lines 220-232): computes
`np.dot` first (which can raise), then returns `0.0` when either norm is zero,
else the quotient. -/
noncomputable def cosine_similarity (v1 v2 : List ℚ) : Except PyErr ℝ := do
  let d ← np_dot v1 v2
  pure (if vec_norm v1 = 0 ∨ vec_norm v2 = 0 then (0 : ℝ)
        else (d : ℝ) / (vec_norm v1 * vec_norm v2))

end

/-! ### Embedding generation (`rag_manager.generate_embedding`, lines 52-79)

The OpenAI client is present iff `OPENAI_API_KEY` is set (`client : Bool`);
the external provider is a parameter.  When the client is missing the method
raises `ValueError` before the `try` block; inside the `try` the text is
truncated to 8000 characters before the provider call, and any provider
failure is converted to a 1536-dimensional zero vector. -/

/-- The zero-vector fallback `[0.0] * 1536` (rag_manager.py line 79). -/
def zero_embedding : List ℚ := List.replicate 1536 0

/-- `text[:8000]` (rag_manager.py line 67). -/
def truncated_input (text : List Char) : List Char := text.take 8000

/-- `RAGManager.generate_embedding`: raises `ValueError` when no client is
configured; otherwise calls the provider on the truncated text and degrades
provider errors to the zero vector. -/
def generate_embedding (client : Bool) (provider : List Char → Except PyErr (List ℚ))
    (text : List Char) : Except PyErr (List ℚ) :=
  if client then
    match provider (truncated_input text) with
    | .ok v => .ok v
    | .error _ => .ok zero_embedding
  else
    .error .valueError

/-- The vector `generate_embedding` produces when the client is configured
(provider output, or the zero vector on provider error). -/
def generate_embedding_vec (provider : List Char → Except PyErr (List ℚ))
    (text : List Char) : List ℚ :=
  match provider (truncated_input text) with
  | .ok v => v
  | .error _ => zero_embedding

/-! ### The `embeddings` collection and `store_redacao_embedding`
(rag_manager.py lines 81-138) -/

/-- One document of the `embeddings` MongoDB collection, as written by
`store_redacao_embedding` (all fields always present). -/
structure EmbeddingDoc where
  eid : Nat
  redacaoId : Nat
  titulo : Option String
  textoSnippet : List Char
  vectorEmbedding : List ℚ
  dataCriacao : Nat
  deriving DecidableEq

/-- The `embeddings` collection in insertion order plus MongoDB's ObjectId
generator for fresh `_id`s. -/
structure EmbStore where
  docs : List EmbeddingDoc
  nextId : Nat
  deriving DecidableEq

def empty_store : EmbStore := { docs := [], nextId := 0 }

/-- Arguments of one `store_redacao_embedding` call, together with the
environment it runs in (client configuration, provider behaviour, clock). -/
structure StoreCall where
  client : Bool
  provider : List Char → Except PyErr (List ℚ)
  redacaoId : Nat
  texto : List Char
  titulo : Option String
  now : Nat

/-- The `$set` update applied to an existing embedding document
(rag_manager.py lines 104-112): replaces vector, snippet, title and
timestamp, keeps `_id` and `redacao_id`. -/
def upsert_fields (c : StoreCall) (v : List ℚ) (d : EmbeddingDoc) : EmbeddingDoc :=
  { d with vectorEmbedding := v, textoSnippet := c.texto.take 1000,
           titulo := c.titulo, dataCriacao := c.now }

/-- `RAGManager.store_redacao_embedding`: looks up an existing document by
`redacao_id`; if present, generates a fresh embedding and updates that
document in place (matched by `_id`); otherwise inserts a new document.
A `generate_embedding` failure propagates (the `except` re-raises) and leaves
the store unchanged, since it happens before any write. -/
def store_redacao_embedding (st : EmbStore) (c : StoreCall) :
    EmbStore × Except PyErr Nat :=
  match st.docs.find? (fun d => d.redacaoId == c.redacaoId) with
  | some existing =>
    match generate_embedding c.client c.provider c.texto with
    | .error e => (st, .error e)
    | .ok v =>
      ({ st with docs := st.docs.map (fun d =>
          if d.eid == existing.eid then upsert_fields c v d else d) },
       .ok existing.eid)
  | none =>
    match generate_embedding c.client c.provider c.texto with
    | .error e => (st, .error e)
    | .ok v =>
      ({ docs := st.docs ++
          [{ eid := st.nextId, redacaoId := c.redacaoId, titulo := c.titulo,
             textoSnippet := c.texto.take 1000, vectorEmbedding := v,
             dataCriacao := c.now }],
         nextId := st.nextId + 1 },
       .ok st.nextId)

/-- Run a sequence of `store_redacao_embedding` calls, threading the store
(a call that raises leaves the store unchanged, as in the source). -/
def run_store_calls (st : EmbStore) : List StoreCall → EmbStore
  | [] => st
  | c :: cs => run_store_calls (store_redacao_embedding st c).1 cs

/-- At most one embedding document per `redacao_id`. -/
def UniquePerRedacao (l : List EmbeddingDoc) : Prop :=
  l.Pairwise (fun a b => a.redacaoId ≠ b.redacaoId)

/-! ### The remaining collections and the database handle -/

/-- One document of the `redacoes` collection (fields used by the modelled
code paths). -/
structure Redacao where
  rid : Nat
  titulo : Option String
  status : String
  mensagemErro : Option String
  analiseDisponivel : Bool
  deriving DecidableEq

/-- One document of the `analises` collection, as assembled by
`processar_redacao_async` (api/main.py lines 285-301). -/
structure Nota where
  competencia : String
  nota : ℚ
  justificativa : String
  deriving DecidableEq

/-- One entry of `contexto_adicional` (api/main.py lines 249-253). -/
structure CtxEntry where
  nota : ℚ
  resumo : String
  pontosFortes : List String
  deriving DecidableEq

structure Analise where
  redacaoId : Nat
  titulo : String
  notaGeral : ℚ
  resumoExecutivo : String
  notas : List Nota
  problemasGramaticais : List String
  recomendacoes : List String
  pontosFortes : List String
  contextoAdicional : List CtxEntry
  deriving DecidableEq

/-- One document of the `corpus_exemplos` collection. -/
structure CorpusExemplo where
  cid : Nat
  titulo : String
  nivelQualidade : ℚ
  categoria : String
  temas : List String
  deriving DecidableEq

/-- A search hit of the shape produced by both branches of
`vector_search` (the `$project` stage, rag_manager.py lines 170-178, and the
manual scan, lines 206-212). -/
structure SearchHit where
  eid : Nat
  redacaoId : Nat
  titulo : Option String
  textoSnippet : List Char
  score : ℝ

/-- The MongoDB database as seen by `RAGManager`: the four collections, the
result of the vector-index capability probe, and the behaviour of the native
`$vectorSearch` aggregation (an external capability that may fail). -/
structure DB where
  redacoes : List Redacao
  analises : List Analise
  embeddings : List EmbeddingDoc
  corpusExemplos : List CorpusExemplo
  hasVectorSearch : Bool
  nativeSearch : List ℚ → Nat → Except PyErr (List SearchHit)

/-! ### Vector search (`rag_manager.vector_search`, lines 140-218) -/

/-- Descending-by-score comparison used to model
`similarities.sort(key=lambda x: x["score"], reverse=True)` (Python's sort is
stable, as is `List.insertionSort`). -/
def hit_desc (a b : SearchHit) : Prop := b.score ≤ a.score

noncomputable instance hit_desc_dec : DecidableRel hit_desc :=
  fun _ _ => Classical.propDecidable _

instance : IsTotal SearchHit hit_desc := ⟨fun a b => le_total b.score a.score⟩

instance : IsTrans SearchHit hit_desc :=
  ⟨fun _ _ _ h1 h2 => le_trans h2 h1⟩

/-- The per-document similarity loop of the fallback branch (rag_manager.py
lines 199-212): an exception in `_cosine_similarity` aborts the whole call. -/
noncomputable def compute_sims (queryEmbedding : List ℚ) :
    List EmbeddingDoc → Except PyErr (List SearchHit)
  | [] => .ok []
  | d :: ds => do
    let s ← cosine_similarity queryEmbedding d.vectorEmbedding
    let rest ← compute_sims queryEmbedding ds
    pure ({ eid := d.eid, redacaoId := d.redacaoId, titulo := d.titulo,
            textoSnippet := d.textoSnippet, score := s } :: rest)

/-- The fallback exhaustive scan (rag_manager.py lines 188-216): load every
embedding, score it against the query, sort descending (stably), take the
first `limit`. -/
noncomputable def fallback_scan (queryEmbedding : List ℚ)
    (docs : List EmbeddingDoc) (limit : Nat) : Except PyErr (List SearchHit) := do
  let sims ← compute_sims queryEmbedding docs
  pure ((List.insertionSort hit_desc sims).take limit)

/-- `RAGManager.vector_search`: embeds the query (this can raise when no
client is configured), tries the native index when the probe succeeded
(failures are swallowed and leave `results` empty), and falls back to the
exhaustive scan whenever `results` is empty. -/
noncomputable def vector_search (client : Bool)
    (provider : List Char → Except PyErr (List ℚ)) (db : DB)
    (queryText : List Char) (limit : Nat) : Except PyErr (List SearchHit) := do
  let queryEmbedding ← generate_embedding client provider queryText
  let results : List SearchHit :=
    if db.hasVectorSearch then
      match db.nativeSearch queryEmbedding limit with
      | .ok r => r
      | .error _ => []
    else []
  if results.isEmpty then
    fallback_scan queryEmbedding db.embeddings limit
  else
    pure results

/-! ### Similar-document retrieval (`rag_manager.get_similar_redacoes`,
lines 234-284) -/

/-- The `analise` sub-dict attached to a similar document
(rag_manager.py lines 273-277). -/
structure AnaliseResumo where
  notaGeral : ℚ
  resumo : String
  principaisRecomendacoes : List String

/-- One entry of the list returned by `get_similar_redacoes`
(rag_manager.py lines 264-269). -/
structure SimilarEntry where
  sid : Nat
  titulo : String
  textoSnippet : List Char
  similarityScore : ℝ
  analise : Option AnaliseResumo

/-- The per-hit loop of `get_similar_redacoes` (lines 250-282): skip a hit
whose `redacao` is missing, attach the analysis summary when one exists.
There is no exclusion of any document id. -/
def build_similar_entries (db : DB) : List SearchHit → List SimilarEntry
  | [] => []
  | emb :: rest =>
    match db.redacoes.find? (fun r => r.rid == emb.redacaoId) with
    | none => build_similar_entries db rest
    | some red =>
      { sid := red.rid, titulo := red.titulo.getD "Sem título",
        textoSnippet := emb.textoSnippet, similarityScore := emb.score,
        analise := (db.analises.find? (fun a => a.redacaoId == emb.redacaoId)).map
          (fun a => { notaGeral := a.notaGeral, resumo := a.resumoExecutivo,
                      principaisRecomendacoes := a.recomendacoes.take 3 }) }
        :: build_similar_entries db rest

/-- `RAGManager.get_similar_redacoes`: vector search then the join loop. -/
noncomputable def get_similar_redacoes (client : Bool)
    (provider : List Char → Except PyErr (List ℚ)) (db : DB)
    (texto : List Char) (limit : Nat) : Except PyErr (List SimilarEntry) := do
  let similarEmbeddings ← vector_search client provider db texto limit
  pure (build_similar_entries db similarEmbeddings)

/-! ### RAG enrichment (`rag_manager.enrich_with_rag`, lines 286-336) -/

/-- One corpus example as projected into the context bundle
(rag_manager.py lines 311-316). -/
structure ExemploResumo where
  cid : Nat
  titulo : String
  nivelQualidade : ℚ
  temas : List String

/-- The context bundle returned by `enrich_with_rag`. -/
structure RagContext where
  redacoesSimilares : List SimilarEntry
  exemplosAltaQualidade : List ExemploResumo
  recomendacoesContextuais : List String

/-- `RAGManager._gerar_recomendacoes_contextuais` (lines 324-336): collect the
recommendation lists of the similar documents that carry an analysis,
de-duplicate (Python builds `list(set(...))`, whose order is unspecified;
`List.dedup` keeps first occurrences) and take the first five. -/
def gerar_recomendacoes_contextuais (similares : List SimilarEntry) : List String :=
  ((similares.foldr (fun s acc =>
      match s.analise with
      | some a => a.principaisRecomendacoes ++ acc
      | none => acc) []).dedup).take 5

/-- `RAGManager.enrich_with_rag`: fetch similar documents (this call has no
`try`/`except`, so a failure inside it — e.g. the `ValueError` raised by
`generate_embedding` when no client is configured — propagates to the
caller), then the high-quality corpus query and the aggregated
recommendations. -/
noncomputable def enrich_with_rag (client : Bool)
    (provider : List Char → Except PyErr (List ℚ)) (db : DB)
    (texto : List Char) : Except PyErr RagContext := do
  let similares ← get_similar_redacoes client provider db texto 5
  let exemplos := (db.corpusExemplos.filter (fun e =>
      decide (8 ≤ e.nivelQualidade) && (e.categoria == "exemplar"))).take 2
  pure { redacoesSimilares := similares,
         exemplosAltaQualidade := exemplos.map (fun e =>
           { cid := e.cid, titulo := e.titulo,
             nivelQualidade := e.nivelQualidade, temas := e.temas }),
         recomendacoesContextuais := gerar_recomendacoes_contextuais similares }

/-! ### The scoring client (`app/utils/ia_agent.py`)

The external completion endpoint together with `json.loads` of its reply is
modelled as one function `scorer : List Char → Except PyErr ScorerReply`:
a raised provider error is `.error`, a reply whose body fails to parse as
JSON is `.ok none` (malformed), and a parsed reply is `.ok (some dict)`. -/

/-- The parsed scoring JSON.  Every field is optional: downstream code reads
each one with `.get(key, default)` (api/main.py lines 288-299). -/
structure ScoreDict where
  notaGeral : Option ℚ
  resumoExecutivo : Option String
  notas : Option (List Nota)
  problemasGramaticais : Option (List String)
  recomendacoes : Option (List String)
  pontosFortes : Option (List String)
  deriving DecidableEq

/-- The empty Python dict `{}` (all keys absent). -/
def empty_score_dict : ScoreDict :=
  { notaGeral := none, resumoExecutivo := none, notas := none,
    problemasGramaticais := none, recomendacoes := none, pontosFortes := none }

/-- Is the dict empty (Python dict truthiness)? -/
def ScoreDict.isEmptyDict (d : ScoreDict) : Bool :=
  d.notaGeral.isNone && d.resumoExecutivo.isNone && d.notas.isNone &&
  d.problemasGramaticais.isNone && d.recomendacoes.isNone && d.pontosFortes.isNone

/-- Reply of the scoring endpoint after JSON parsing: `none` models a
malformed (non-JSON) body. -/
abbrev ScorerReply := Option ScoreDict

/-- What `analyze_text` returns: either the parsed dict or a Python dict of
the shape `\x7b"error": msg\x7d`. -/
inductive AnalysisOutcome where
  | result (d : ScoreDict)
  | errorResult (msg : String)
  deriving DecidableEq

/-- A tenacity retry policy: `wait_exponential(min, max)` plus
`stop_after_attempt`. -/
structure RetryPolicy where
  waitMin : Nat
  waitMax : Nat
  maxAttempts : Nat
  deriving DecidableEq

/-- `@retry(wait=wait_exponential(min=1, max=60), stop=stop_after_attempt(5))`
on `IAAgent.process_document` (ia_agent.py line 62). -/
def process_document_policy : RetryPolicy :=
  { waitMin := 1, waitMax := 60, maxAttempts := 5 }

/-- `@retry(wait=wait_exponential(min=1, max=60), stop=stop_after_attempt(3))`
on `IAAgent.analyze_text` (ia_agent.py line 98) — the method that performs
the scoring completion call. -/
def analyze_text_policy : RetryPolicy :=
  { waitMin := 1, waitMax := 60, maxAttempts := 3 }

/-- `IAAgent.extract_key_points` (ia_agent.py lines 155-202) carries no retry
decorator. -/
def extract_key_points_policy : Option RetryPolicy := none

/-- `IAAgent.generate_improvement_suggestions` (ia_agent.py lines 204-259)
carries no retry decorator. -/
def generate_improvement_suggestions_policy : Option RetryPolicy := none

/-- The wait tenacity's `wait_exponential(multiplier=1, min=mn, max=mx)`
computes before retrying attempt `k + 1`: `2 ^ (k - 1)` clamped into
`[mn, mx]`. -/
def wait_exponential (mn mx k : Nat) : Nat := max mn (min (2 ^ (k - 1)) mx)

/-- Tenacity's retry loop: run the body for attempt `1, 2, ...`; stop on the
first non-raising attempt, or give up after `maxAttempts` attempts.  Returns
the final outcome and the number of attempts performed. -/
def retry_run_aux (body : Nat → Except PyErr α) : Nat → Nat → Except PyErr α × Nat
  | 0, k => (.error .retryError, k)
  | budget + 1, k =>
    match body k with
    | .ok a => (.ok a, k)
    | .error e => if budget = 0 then (.error e, k) else retry_run_aux body budget (k + 1)

def retry_run (body : Nat → Except PyErr α) (maxAttempts : Nat) :
    Except PyErr α × Nat :=
  retry_run_aux body maxAttempts 1

/-- The body of `IAAgent.analyze_text` (ia_agent.py lines 99-153): truncate the
text to 14000 characters (appending an ellipsis), call the scorer, and convert
every failure into an `\x7b"error": ...\x7d` dict — the body itself never
raises, because both the JSON decode error and every other exception are
caught. -/
def analyze_text_body (scorer : List Char → Except PyErr ScorerReply)
    (text : List Char) : AnalysisOutcome :=
  let t := if text.length > 14000 then text.take 14000 ++ ['.', '.', '.'] else text
  match scorer t with
  | .error _ => .errorResult "Falha na análise"
  | .ok none => .errorResult "Resposta da IA não está em formato JSON válido"
  | .ok (some d) => .result d

/-- `IAAgent.analyze_text` as executed: the tenacity wrapper around a body
that never raises.  The second component is the number of attempts made. -/
def analyze_text_run (scorer : List Char → Except PyErr ScorerReply)
    (text : List Char) : Except PyErr AnalysisOutcome × Nat :=
  retry_run (fun _ => .ok (analyze_text_body scorer text))
    analyze_text_policy.maxAttempts

/-- The body of `IAAgent.extract_key_points` (lines 155-202): no retry
decorator; every exception is caught and turned into `[]`.  The key-point
provider models the completion call plus JSON parsing and list extraction. -/
def extract_key_points_run (keyPointProvider : List Char → Except PyErr (List String))
    (text : List Char) (maxPoints : Nat) : List String :=
  match keyPointProvider (text.take 8000) with
  | .ok points => points.take maxPoints
  | .error _ => []

/-- The body of `IAAgent.generate_improvement_suggestions` (lines 204-259):
no retry decorator; every exception is caught and turned into `[]`. -/
def generate_improvement_suggestions_run
    (suggestionProvider : List Char → Except PyErr (List String))
    (text : List Char) : List String :=
  match suggestionProvider text with
  | .ok suggestions => suggestions
  | .error _ => []

/-- Result dict of `IAAgent.process_document` (lines 63-96): either an
`\x7b"error": ...\x7d` dict or a success dict carrying the `analyze_text`
outcome under `"analysis"`. -/
inductive DocResult where
  | err (msg : String)
  | success (analysis : AnalysisOutcome)
  deriving DecidableEq

/-- The body of `IAAgent.process_document`: read the file, extract its text,
return an error dict when extraction yields nothing, else run
`analyze_text`; every exception is caught and turned into an error dict, so
the body never raises and its own 5-attempt retry decorator never fires. -/
def process_document_body (readFile : String → Except PyErr (List Char))
    (extractText : List Char → Except PyErr (List Char))
    (scorer : List Char → Except PyErr ScorerReply)
    (filePath : String) : DocResult :=
  match readFile filePath with
  | .error _ => .err "Falha ao processar documento"
  | .ok content =>
    match extractText content with
    | .error _ => .err "Falha ao processar documento"
    | .ok text =>
      if text.isEmpty then .err "Não foi possível extrair texto do documento."
      else
        match (analyze_text_run scorer text).1 with
        | .ok outcome => .success outcome
        | .error _ => .err "Falha ao processar documento"

/-- `IAAgent.process_document` as executed: tenacity wrapper around the
non-raising body. -/
def process_document_run (readFile : String → Except PyErr (List Char))
    (extractText : List Char → Except PyErr (List Char))
    (scorer : List Char → Except PyErr ScorerReply)
    (filePath : String) : Except PyErr DocResult × Nat :=
  retry_run (fun _ => .ok (process_document_body readFile extractText scorer filePath))
    process_document_policy.maxAttempts

/-! ### The asynchronous pipeline (`app/api/main.py`, `processar_redacao_async`,
lines 211-317)

Several names referenced by this function do not exist at runtime, and each
is modelled as the exception Python raises at that site:

* `redacao_repository.update` (lines 215, 219, 307, 314): `RedacaoRepository`
  (repositories.py lines 21-130) defines `update_one` and `update_status` but
  no `update`, so the attribute lookup raises `AttributeError`;
* `logger` (lines 229, 256, 261, 268, 272, 277, 312): `main.py` never imports
  `logging` nor defines `logger`, so evaluating `logger` raises `NameError`;
* `embedding_repository` (line 234): defined in repositories.py but not in
  the import list of main.py (lines 25-29), so a `NameError`;
* `rag_manager.find_similar_redacoes` (line 241): `RAGManager` defines
  `get_similar_redacoes`, not `find_similar_redacoes` — `AttributeError`;
* `contexto_adicional` (line 300): only ever assigned inside the
  `if embedding:` block (line 242), which is never reached, so evaluating it
  in the `analise` dict literal raises `NameError` (unbound local);
* `await rag_manager.generate_embedding(texto)` (line 227):
  `generate_embedding` is a plain synchronous method returning a list, and
  `await` on a list raises `TypeError`. -/

/-- `redacao_repository.update(...)`: missing attribute, `AttributeError`. -/
def redacao_repository_update_attr : Except PyErr Unit := .error .attributeError

/-- `analise_repository.create(...)` (line 304): `AnaliseRepository` defines
`insert_one` and `find_by_redacao` but no `create` — `AttributeError`. -/
def analise_repository_create_attr : Except PyErr Unit := .error .attributeError

/-- Any use of the undefined name `logger` in main.py — `NameError`. -/
def main_logger_name : Except PyErr Unit := .error .nameError

/-- The undefined name `embedding_repository` in main.py — `NameError`. -/
def embedding_repository_name : Except PyErr Unit := .error .nameError

/-- `rag_manager.find_similar_redacoes` — missing attribute, `AttributeError`. -/
def rag_manager_find_similar_attr : Except PyErr Unit := .error .attributeError

/-- The unbound local `contexto_adicional` at line 300 — `NameError`. -/
def contexto_adicional_lookup : Except PyErr (List CtxEntry) := .error .nameError

/-- Lines 226-230: `embedding = await rag_manager.generate_embedding(texto)`
raises (`TypeError` on awaiting the returned list, or the `ValueError` of an
unconfigured client); the `except` handler then evaluates `logger.error`,
which raises `NameError` past the handler. -/
def awaited_generate_embedding (client : Bool)
    (provider : List Char → Except PyErr (List ℚ)) (texto : List Char) :
    Except PyErr (List ℚ) :=
  match generate_embedding client provider texto with
  | .ok _ => .error .typeError
  | .error e => .error e

def embedding_block (client : Bool)
    (provider : List Char → Except PyErr (List ℚ)) (texto : List Char) :
    Except PyErr (Option (List ℚ)) :=
  match awaited_generate_embedding client provider texto with
  | .ok v => .ok (some v)
  | .error _ =>
    match main_logger_name with
    | .ok _ => .ok none
    | .error e => .error e

/-- External collaborators and configuration of one pipeline run. -/
structure PipeEnv where
  client : Bool
  embedProvider : List Char → Except PyErr (List ℚ)
  scorer : List Char → Except PyErr ScorerReply
  keyPointProvider : List Char → Except PyErr (List String)
  suggestionProvider : List Char → Except PyErr (List String)
  readFile : String → Except PyErr (List Char)
  extractText : List Char → Except PyErr (List Char)
  fileExists : String → Bool

/-- Arguments of `processar_redacao_async`. -/
structure PipeArgs where
  redacaoId : Nat
  texto : List Char
  titulo : Option String
  usuarioId : Nat
  filePath : Option String

/-- The default five-competency rubric of the `analise` dict literal
(api/main.py lines 290-296), used when the scoring result has no `notas`. -/
def default_notas : List Nota :=
  [{ competencia := "Domínio da norma culta", nota := 13/2,
     justificativa := "Apresenta alguns erros de pontuação e concordância." },
   { competencia := "Compreensão da proposta", nota := 8,
     justificativa := "Boa compreensão do tema, com desenvolvimento adequado." },
   { competencia := "Argumentação", nota := 7,
     justificativa := "Argumentos consistentes, mas poderiam ser mais desenvolvidos." },
   { competencia := "Coesão textual", nota := 15/2,
     justificativa := "Uso adequado de elementos coesivos, com algumas falhas." },
   { competencia := "Proposta de intervenção", nota := 6,
     justificativa := "Proposta pouco desenvolvida e sem detalhamento dos agentes." }]

/-- The `analise` dict literal (api/main.py lines 285-301): every scoring
field defaults deterministically (`.get(key, default)`). -/
def montar_analise (redacaoId : Nat) (titulo : Option String) (ar : ScoreDict)
    (sugestoes pontosChave : List String) (contexto : List CtxEntry) : Analise :=
  { redacaoId := redacaoId,
    titulo := titulo.getD "Redação sem título",
    notaGeral := ar.notaGeral.getD 7,
    resumoExecutivo := ar.resumoExecutivo.getD "Análise não disponível",
    notas := ar.notas.getD default_notas,
    problemasGramaticais := ar.problemasGramaticais.getD [],
    recomendacoes := ar.recomendacoes.getD sugestoes,
    pontosFortes := ar.pontosFortes.getD pontosChave,
    contextoAdicional := contexto }

/-- Lines 276-278: `if "error" in analysis_result:` logs (raising `NameError`
on the undefined `logger`) and replaces the result with `\x7b\x7d`. -/
def after_analysis_check (o : AnalysisOutcome) : Except PyErr ScoreDict :=
  match o with
  | .result d => .ok d
  | .errorResult _ =>
    match main_logger_name with
    | .ok _ => .ok empty_score_dict
    | .error e => .error e

/-- Lines 258-278: choose between `process_document` on the original file and
`analyze_text` on the extracted text.  Every branch logs through the
undefined `logger` before doing real work. -/
def analysis_section (env : PipeEnv) (a : PipeArgs) : Except PyErr ScoreDict :=
  let useFile := match a.filePath with
    | some p => env.fileExists p
    | none => false
  if useFile then
    match main_logger_name with
    | .error e => .error e
    | .ok _ =>
      match a.filePath with
      | none => .ok empty_score_dict
      | some p =>
        match (process_document_run env.readFile env.extractText env.scorer p).1 with
        | .error e => .error e
        | .ok (.success outcome) => after_analysis_check outcome
        | .ok (.err _) =>
          match main_logger_name with
          | .error e => .error e
          | .ok _ =>
            match (analyze_text_run env.scorer a.texto).1 with
            | .error e => .error e
            | .ok outcome => after_analysis_check outcome
  else
    match main_logger_name with
    | .error e => .error e
    | .ok _ =>
      match (analyze_text_run env.scorer a.texto).1 with
      | .error e => .error e
      | .ok outcome => after_analysis_check outcome

/-- The `try` block of `processar_redacao_async` (lines 213-310), threading
the database and the exception state statement by statement. -/
def processar_try_body (env : PipeEnv) (db : DB) (a : PipeArgs) :
    DB × Except PyErr Unit :=
  -- line 215: await redacao_repository.update(redacao_id, \x7b"status": "processando"\x7d)
  match redacao_repository_update_attr with
  | .error e => (db, .error e)
  | .ok _ =>
    -- lines 218-223: the length guard
    if a.texto.length < 50 then
      match redacao_repository_update_attr with
      | .error e => (db, .error e)
      | .ok _ => (db, .ok ())
    else
      -- lines 226-230: embedding block
      match embedding_block env.client env.embedProvider a.texto with
      | .error e => (db, .error e)
      | .ok emb =>
        -- lines 233-253: if embedding: save it and fetch similars
        match (match emb with
               | none => (.ok () : Except PyErr Unit)
               | some _ =>
                 match embedding_repository_name with
                 | .error e => .error e
                 | .ok _ =>
                   match rag_manager_find_similar_attr with
                   | .error e => .error e
                   | .ok _ => .ok ()) with
        | .error e => (db, .error e)
        | .ok _ =>
          -- line 256: logger.info
          match main_logger_name with
          | .error e => (db, .error e)
          | .ok _ =>
            -- lines 258-278
            match analysis_section env a with
            | .error e => (db, .error e)
            | .ok ar =>
              -- lines 281-282: secondary enrichment calls
              let sugestoes := if ar.isEmptyDict then []
                else generate_improvement_suggestions_run env.suggestionProvider a.texto
              let pontosChave := if a.texto.isEmpty then []
                else extract_key_points_run env.keyPointProvider a.texto 5
              -- lines 285-301: the dict literal reads the unbound local
              -- contexto_adicional
              match contexto_adicional_lookup with
              | .error e => (db, .error e)
              | .ok contexto =>
                let analise := montar_analise a.redacaoId a.titulo ar sugestoes pontosChave contexto
                -- line 304: analise_repository.create
                match analise_repository_create_attr with
                | .error e => (db, .error e)
                | .ok _ =>
                  -- lines 307-310: redacao_repository.update to "concluida"
                  match redacao_repository_update_attr with
                  | .error e => ({ db with analises := db.analises ++ [analise] }, .error e)
                  | .ok _ => ({ db with analises := db.analises ++ [analise] }, .ok ())

/-- `processar_redacao_async` (lines 211-317): the `try` block plus the
`except` handler, whose first statement `logger.error(...)` (line 312) raises
`NameError`, so the error-status write at line 314 is never reached. -/
def processar_redacao_async (env : PipeEnv) (db : DB) (a : PipeArgs) :
    DB × Except PyErr Unit :=
  match processar_try_body env db a with
  | (db', .ok _) => (db', .ok ())
  | (db', .error _) =>
    match main_logger_name with
    | .error e2 => (db', .error e2)
    | .ok _ =>
      match redacao_repository_update_attr with
      | .error e3 => (db', .error e3)
      | .ok _ => (db', .ok ())

/-- The status of document `rid` in the store. -/
def status_of (db : DB) (rid : Nat) : Option String :=
  (db.redacoes.find? (fun r => r.rid == rid)).map (fun r => r.status)

/-- Terminal statuses of the document state machine. -/
def TerminalStatus (s : String) : Prop := s = "concluida" ∨ s = "erro"

/-- The monotone order on statuses: `pendente → processando → terminal`. -/
def status_rank (s : String) : Nat :=
  if s = "pendente" then 0
  else if s = "processando" then 1
  else 2

/-- One status value may follow another: equal, or strictly later in the
`pendente → processando → \x7bconcluida, erro\x7d` chain. -/
def StatusLe : Option String → Option String → Prop
  | a, b => a = b ∨ ∃ sa sb, a = some sa ∧ b = some sb ∧ status_rank sa < status_rank sb

/-! ### The dead self-exclusion filter (api/main.py lines 240-253)

The `if embedding:` block would build `contexto_adicional` from
`rag_manager.find_similar_redacoes` hits, keeping only hits with
`similar_id and similar_id != redacao_id`.  The block is unreachable (the
embedding is always `None` and `find_similar_redacoes` does not exist), but
it is the only place in the repository that excludes the processed document,
so it is modelled as a standalone function. -/

/-- A raw similar-document dict as the dead code expects it: possibly
carrying an `_id`. -/
structure SimilarRaw where
  sid : Option Nat
  deriving DecidableEq

/-- The loop of lines 244-253: for each hit with a truthy `_id` different
from `redacao_id` whose analysis exists, append a context entry. -/
def contexto_adicional_from (redacaoId : Nat)
    (findAnalise : Nat → Option Analise) : List SimilarRaw → List CtxEntry
  | [] => []
  | s :: rest =>
    match s.sid with
    | none => contexto_adicional_from redacaoId findAnalise rest
    | some i =>
      if i ≠ redacaoId then
        match findAnalise i with
        | some an =>
          { nota := an.notaGeral, resumo := an.resumoExecutivo,
            pontosFortes := an.pontosFortes }
            :: contexto_adicional_from redacaoId findAnalise rest
        | none => contexto_adicional_from redacaoId findAnalise rest
      else contexto_adicional_from redacaoId findAnalise rest

/-! ### Concrete instances used by counterexamples and witnesses -/

/-- Two stored embeddings with identical vectors (hence tied scores). -/
def c3_doc_a : EmbeddingDoc :=
  { eid := 0, redacaoId := 1, titulo := none, textoSnippet := [],
    vectorEmbedding := [1], dataCriacao := 0 }

def c3_doc_b : EmbeddingDoc :=
  { eid := 1, redacaoId := 2, titulo := none, textoSnippet := [],
    vectorEmbedding := [1], dataCriacao := 0 }

def c3_demo_doc : EmbeddingDoc :=
  { eid := 0, redacaoId := 1, titulo := none, textoSnippet := [],
    vectorEmbedding := [1, 2], dataCriacao := 0 }

/-- A concrete `store_redacao_embedding` call with a configured client. -/
def c6_call : StoreCall :=
  { client := true, provider := fun _ => .ok [2], redacaoId := 7,
    texto := ['o'], titulo := none, now := 3 }

/-- An empty database whose vector-index probe failed. -/
def c8_db : DB :=
  { redacoes := [], analises := [], embeddings := [], corpusExemplos := [],
    hasVectorSearch := false, nativeSearch := fun _ _ => .error .apiError }

/-- A database with one stored two-dimensional embedding. -/
def c8_db2 : DB :=
  { redacoes := [{ rid := 9, titulo := none, status := "concluida",
                   mensagemErro := none, analiseDisponivel := false }],
    analises := [], corpusExemplos := [],
    embeddings := [{ eid := 0, redacaoId := 9, titulo := none,
                     textoSnippet := [], vectorEmbedding := [1, 2],
                     dataCriacao := 0 }],
    hasVectorSearch := false, nativeSearch := fun _ _ => .error .apiError }

/-- A database holding document 42 and its own stored embedding, on which
`get_similar_redacoes` is queried with document 42's text. -/
def c9_db : DB :=
  { redacoes := [{ rid := 42, titulo := some "t", status := "concluida",
                   mensagemErro := none, analiseDisponivel := true }],
    analises := [], corpusExemplos := [],
    embeddings := [{ eid := 0, redacaoId := 42, titulo := none,
                     textoSnippet := [], vectorEmbedding := [1],
                     dataCriacao := 0 }],
    hasVectorSearch := false, nativeSearch := fun _ _ => .error .apiError }

def c9_analise : Analise :=
  { redacaoId := 2, titulo := "t", notaGeral := 9, resumoExecutivo := "r",
    notas := [], problemasGramaticais := [], recomendacoes := [],
    pontosFortes := ["p"], contextoAdicional := [] }

/-- A database whose only document is already in the terminal state
`concluida`. -/
def c4_db : DB :=
  { redacoes := [{ rid := 7, titulo := none, status := "concluida",
                   mensagemErro := none, analiseDisponivel := true }],
    analises := [], embeddings := [], corpusExemplos := [],
    hasVectorSearch := false, nativeSearch := fun _ _ => .error .apiError }

def c4_env : PipeEnv :=
  { client := true, embedProvider := fun _ => .ok [], scorer := fun _ => .ok none,
    keyPointProvider := fun _ => .ok [], suggestionProvider := fun _ => .ok [],
    readFile := fun _ => .error .valueError,
    extractText := fun _ => .error .valueError, fileExists := fun _ => false }

def c4_args : PipeArgs :=
  { redacaoId := 7, texto := List.replicate 60 'c', titulo := none,
    usuarioId := 1, filePath := none }

/-! ## Helper lemmas -/

/-- With a configured client, `generate_embedding` never raises. -/
theorem generate_embedding_true (provider : List Char → Except PyErr (List ℚ))
    (text : List Char) :
    generate_embedding true provider text = .ok (generate_embedding_vec provider text) := by
  unfold generate_embedding generate_embedding_vec
  cases provider (truncated_input text) <;> simp

/-- Cosine similarity succeeds on equal-length vectors. -/
theorem cosine_similarity_ok (v1 v2 : List ℚ) (h : v1.length = v2.length) :
    ∃ s, cosine_similarity v1 v2 = .ok s := by
  unfold cosine_similarity np_dot
  rw [if_pos h]
  exact ⟨_, rfl⟩

/-- The per-document similarity loop succeeds and preserves length when all
stored vectors match the query's dimension. -/
theorem compute_sims_ok (qv : List ℚ) (docs : List EmbeddingDoc)
    (h : ∀ d ∈ docs, d.vectorEmbedding.length = qv.length) :
    ∃ sims, compute_sims qv docs = .ok sims ∧ sims.length = docs.length := by
  induction docs with
  | nil => exact ⟨[], rfl, rfl⟩
  | cons d ds ih =>
    obtain ⟨s, hs⟩ := cosine_similarity_ok qv d.vectorEmbedding (h d (by simp)).symm
    obtain ⟨sims, hsims, hlen⟩ := ih (fun x hx => h x (by simp [hx]))
    refine ⟨{ eid := d.eid, redacaoId := d.redacaoId, titulo := d.titulo,
              textoSnippet := d.textoSnippet, score := s } :: sims,
            ?_, by simp [hlen]⟩
    simp only [compute_sims]
    rw [hs, hsims]
    rfl

/-- The fallback scan succeeds, is sorted weakly descending, and returns
`min k n` hits, when all stored vectors match the query's dimension. -/
theorem fallback_scan_ok (qv : List ℚ) (docs : List EmbeddingDoc) (k : Nat)
    (h : ∀ d ∈ docs, d.vectorEmbedding.length = qv.length) :
    ∃ hits, fallback_scan qv docs k = .ok hits ∧
      List.Sorted hit_desc hits ∧ hits.length = min k docs.length := by
  obtain ⟨sims, hsims, hlen⟩ := compute_sims_ok qv docs h
  refine ⟨(List.insertionSort hit_desc sims).take k, ?_, ?_, ?_⟩
  · simp only [fallback_scan]
    rw [hsims]
    rfl
  · exact List.Pairwise.sublist (List.take_sublist k _)
      (List.sorted_insertionSort hit_desc sims)
  · rw [List.length_take, List.length_insertionSort, hlen]

/-- Bind of a successful `Except` computation reduces. -/
theorem except_ok_bind {ε α β : Type} (x : α) (f : α → Except ε β) :
    (do let y ← (Except.ok x : Except ε α); f y) = f x := rfl

/-- The norm of the zero vector `[0.0]` is zero. -/
theorem vec_norm_single_zero : vec_norm [(0 : ℚ)] = 0 := by
  have h0 : sum_sq [(0 : ℚ)] = 0 := by norm_num [sum_sq]
  unfold vec_norm
  rw [h0]
  norm_num

/-- With a configured client, `vector_search` never raises when stored
vectors match the query embedding's dimension. -/
theorem vector_search_ok (provider : List Char → Except PyErr (List ℚ))
    (db : DB) (texto : List Char) (k : Nat)
    (h : ∀ d ∈ db.embeddings,
      d.vectorEmbedding.length = (generate_embedding_vec provider texto).length) :
    ∃ hits, vector_search true provider db texto k = .ok hits := by
  obtain ⟨hits, hfb, -, -⟩ :=
    fallback_scan_ok (generate_embedding_vec provider texto) db.embeddings k h
  unfold vector_search
  rw [generate_embedding_true, except_ok_bind]
  by_cases hv : db.hasVectorSearch
  · rcases hnat : db.nativeSearch (generate_embedding_vec provider texto) k with e' | r
    · exact ⟨hits, by simp [hv, hnat, hfb]⟩
    · by_cases hr : (r : List SearchHit).isEmpty
      · exact ⟨hits, by simp [hv, hnat, hr, hfb]⟩
      · refine ⟨r, ?_⟩
        simp [hv, hnat, hr]
        rfl
  · exact ⟨hits, by simp [hv, hfb]⟩

/-- `find?` over an append whose first part has no match. -/
theorem find?_append_none {α : Type} {l l' : List α} {p : α → Bool}
    (h : l.find? p = none) : (l ++ l').find? p = l'.find? p := by
  rw [List.find?_append, h, Option.none_or]

/-- Updating (by `_id`) the first document matching a `redacao_id` predicate
commutes with `find?`, when the update preserves `redacao_id`. -/
theorem find?_map_update {l : List EmbeddingDoc} {rid : Nat} {e : EmbeddingDoc}
    (upd : EmbeddingDoc → EmbeddingDoc)
    (hpres : ∀ d, (upd d).redacaoId = d.redacaoId)
    (h : l.find? (fun d => d.redacaoId == rid) = some e) :
    (l.map (fun d => if d.eid == e.eid then upd d else d)).find?
        (fun d => d.redacaoId == rid) = some (upd e) := by
  induction l with
  | nil => simp at h
  | cons a l ih =>
    by_cases ha : (a.redacaoId == rid) = true
    · rw [List.find?_cons_of_pos (p := fun d : EmbeddingDoc => d.redacaoId == rid) l ha] at h
      injection h with h
      subst h
      simp only [List.map_cons, beq_self_eq_true, if_true]
      exact List.find?_cons_of_pos (p := fun d : EmbeddingDoc => d.redacaoId == rid) _
        (by simpa [hpres] using ha)
    · rw [List.find?_cons_of_neg (p := fun d : EmbeddingDoc => d.redacaoId == rid) l ha] at h
      simp only [List.map_cons]
      rw [List.find?_cons_of_neg (p := fun d : EmbeddingDoc => d.redacaoId == rid) _ (by
        by_cases he : (a.eid == e.eid) = true <;> simp [he, hpres, ha])]
      exact ih h

/-- The in-place update of `store_redacao_embedding` keeps `redacao_id`. -/
theorem upsert_keeps_redacaoId (c : StoreCall) (v : List ℚ) (e d : EmbeddingDoc) :
    ((if d.eid == e.eid then upsert_fields c v d else d)).redacaoId = d.redacaoId := by
  by_cases h : (d.eid == e.eid) = true <;> simp [h, upsert_fields]

/-- One `store_redacao_embedding` call preserves uniqueness of
`redacao_id`s. -/
theorem store_preserves_unique (st : EmbStore) (c : StoreCall)
    (h : UniquePerRedacao st.docs) :
    UniquePerRedacao (store_redacao_embedding st c).1.docs := by
  unfold store_redacao_embedding
  rcases hfind : st.docs.find? (fun d => d.redacaoId == c.redacaoId) with _ | e
  · rw [hfind]
    rcases hgen : generate_embedding c.client c.provider c.texto with e' | v
    · exact h
    · show List.Pairwise _ (st.docs ++ _)
      rw [List.pairwise_append]
      refine ⟨h, List.pairwise_singleton _ _, ?_⟩
      intro a ha b hb
      have := List.find?_eq_none.mp hfind a ha
      simp only [List.mem_singleton] at hb
      subst hb
      simpa using this
  · rw [hfind]
    rcases hgen : generate_embedding c.client c.provider c.texto with e' | v
    · exact h
    · show List.Pairwise _ (st.docs.map _)
      rw [List.pairwise_map]
      exact h.imp (fun {a b} hab => by
        rw [upsert_keeps_redacaoId, upsert_keeps_redacaoId]; exact hab)

/-- Uniqueness of `redacao_id`s holds after any call sequence. -/
theorem run_store_unique (cs : List StoreCall) (st : EmbStore)
    (h : UniquePerRedacao st.docs) :
    UniquePerRedacao (run_store_calls st cs).docs := by
  induction cs generalizing st with
  | nil => exact h
  | cons c cs ih => exact ih _ (store_preserves_unique st c h)

/-- A list with pairwise-distinct `redacao_id`s has at most one document per
`redacao_id`. -/
theorem countP_le_one_of_unique {l : List EmbeddingDoc}
    (h : UniquePerRedacao l) (d : Nat) :
    l.countP (fun r => r.redacaoId == d) ≤ 1 := by
  induction l with
  | nil => simp
  | cons a l ih =>
    rw [List.countP_cons]
    rcases List.pairwise_cons.mp h with ⟨ha, hl⟩
    by_cases hp : (a.redacaoId == d) = true
    · have hzero : l.countP (fun r => r.redacaoId == d) = 0 := by
        rw [List.countP_eq_zero]
        intro b hb
        have := ha b hb
        simp only [beq_iff_eq] at hp ⊢
        rw [← hp]
        exact fun hbd => this hbd.symm
      simp [hp, hzero]
    · simp only [hp, if_false, Nat.add_zero]
      exact ih hl

/-- Every run of `processar_redacao_async` dies on the missing
`RedacaoRepository.update` attribute and then on the undefined `logger` in
the `except` handler, leaving the database untouched. -/
theorem processar_crashes (env : PipeEnv) (db : DB) (a : PipeArgs) :
    processar_redacao_async env db a = (db, .error .nameError) := rfl

/-! ## Claim theorems -/

/-- C1: for a document whose `raw_text` has length 50 and any scoring
provider (in particular one always returning malformed JSON), the pipeline
run crashes with `NameError` and leaves the database untouched: no `Analise`
is persisted and the status never becomes `concluida`.  The intended
degraded analysis — the dict literal of api/main.py lines 285-301 applied to
the empty scoring result — would indeed carry the five-competency default
rubric and the default overall score 7.0, but the run never reaches it. -/
theorem C1_malformed_scoring_run_crashes (env : PipeEnv) (db : DB)
    (rid uid : Nat) (titulo : Option String) :
    processar_redacao_async env db
        { redacaoId := rid, texto := List.replicate 50 'a', titulo := titulo,
          usuarioId := uid, filePath := none }
      = (db, .error .nameError) ∧
    (montar_analise rid titulo empty_score_dict [] [] []).notas = default_notas ∧
    (montar_analise rid titulo empty_score_dict [] [] []).notaGeral = 7 ∧
    default_notas.length = 5 :=
  ⟨processar_crashes env db _, rfl, rfl, rfl⟩

/-- C5: a document whose `raw_text` has length 49 does not end in `erro` with
the validation message; the run crashes with `NameError` on the status-write
site at line 215 — before the length guard at line 218 is ever evaluated —
and the document's status (and error message) are unchanged. -/
theorem C5_short_text_run_crashes_before_guard (env : PipeEnv) (db : DB)
    (rid uid : Nat) (titulo : Option String) :
    processar_redacao_async env db
        { redacaoId := rid, texto := List.replicate 49 'b', titulo := titulo,
          usuarioId := uid, filePath := none }
      = (db, .error .nameError) ∧
    status_of (processar_redacao_async env db
        { redacaoId := rid, texto := List.replicate 49 'b', titulo := titulo,
          usuarioId := uid, filePath := none }).1 rid = status_of db rid :=
  ⟨processar_crashes env db _, by rw [processar_crashes]⟩

/-- C4: within one pipeline run for one document, the status evolution
respects the order `pendente → processando → \x7bconcluida, erro\x7d` and a
document already in a terminal state never leaves it.  (Both parts hold
because no status write of `processar_redacao_async` ever succeeds: the run
dies on the missing `RedacaoRepository.update` attribute, so the database is
returned unchanged.) -/
theorem C4_status_monotonic_no_terminal_exit (env : PipeEnv) (db : DB)
    (a : PipeArgs) (rid : Nat) :
    (∀ s, status_of db rid = some s → TerminalStatus s →
      status_of (processar_redacao_async env db a).1 rid = some s) ∧
    StatusLe (status_of db rid) (status_of (processar_redacao_async env db a).1 rid) := by
  constructor
  · intro s hs _
    rw [processar_crashes]
    exact hs
  · rw [processar_crashes]
    exact Or.inl rfl

/-- Witness for C4 at a concrete database whose document 7 is already
`concluida`. -/
theorem C4_witness :
    status_of (processar_redacao_async c4_env c4_db c4_args).1 7 = some "concluida" :=
  (C4_status_monotonic_no_terminal_exit c4_env c4_db c4_args 7).1
    "concluida" rfl (Or.inl rfl)

/-- C2 counterexample: the retry decorator of the primary scoring call
`analyze_text` is capped at 3 attempts, not 5, and the secondary calls
(`extract_key_points`, `generate_improvement_suggestions`) carry no retry
decorator at all. -/
theorem C2_counterexample :
    analyze_text_policy.maxAttempts = 3 ∧
    ¬ analyze_text_policy.maxAttempts = 5 ∧
    extract_key_points_policy = none ∧
    generate_improvement_suggestions_policy = none :=
  ⟨rfl, by decide, rfl, rfl⟩

/-- C2 (amended): all retry decorators use `wait_exponential(min=1, max=60)`
(first wait 1, all waits within `[1, 60]`); `process_document` is capped at 5
attempts and `analyze_text` — the call that performs the scoring completion —
at 3; the secondary calls have no retry.  Moreover both decorated bodies
catch every exception and return error dicts, so each call performs exactly
one attempt regardless of provider behaviour. -/
theorem C2_retry_configuration :
    process_document_policy = { waitMin := 1, waitMax := 60, maxAttempts := 5 } ∧
    analyze_text_policy = { waitMin := 1, waitMax := 60, maxAttempts := 3 } ∧
    extract_key_points_policy = none ∧
    generate_improvement_suggestions_policy = none ∧
    wait_exponential 1 60 1 = 1 ∧
    (∀ k, 1 ≤ wait_exponential 1 60 k ∧ wait_exponential 1 60 k ≤ 60) ∧
    (∀ scorer text,
      analyze_text_run scorer text = (.ok (analyze_text_body scorer text), 1)) ∧
    (∀ rf et scorer p, process_document_run rf et scorer p
      = (.ok (process_document_body rf et scorer p), 1)) := by
  refine ⟨rfl, rfl, rfl, rfl, rfl, ?_, fun _ _ => rfl, fun _ _ _ _ => rfl⟩
  intro k
  unfold wait_exponential
  constructor
  · exact le_max_left 1 _
  · exact max_le (by norm_num) (min_le_right _ 60)

/-- C10 counterexample: the pair `([0.0], [1.0, 1.0])` has a zero-norm member
yet `_cosine_similarity` raises (`np.dot` fails on mismatched shapes before
the zero-norm guard runs) instead of returning 0.0. -/
theorem C10_counterexample :
    cosine_similarity [(0 : ℚ)] [(1 : ℚ), 1] = .error .valueError ∧
    vec_norm [(0 : ℚ)] = 0 :=
  ⟨rfl, vec_norm_single_zero⟩

/-- C10 (amended): for every pair of equal-length vectors in which a vector
has zero norm, `_cosine_similarity` returns exactly 0.0 and raises no
exception. -/
theorem C10_zero_norm_gives_zero (v1 v2 : List ℚ)
    (hlen : v1.length = v2.length)
    (h : vec_norm v1 = 0 ∨ vec_norm v2 = 0) :
    cosine_similarity v1 v2 = .ok 0 := by
  unfold cosine_similarity np_dot
  rw [if_pos hlen, except_ok_bind, if_pos h]
  rfl

/-- Witness for C10 at the concrete pair `([0], [5])`. -/
theorem C10_witness : cosine_similarity [(0 : ℚ)] [(5 : ℚ)] = .ok 0 :=
  C10_zero_norm_gives_zero [(0 : ℚ)] [(5 : ℚ)] rfl (Or.inl vec_norm_single_zero)

/-- C7: `generate_embedding` depends only on the first 8000 characters of its
input (the provider is called on `text[:8000]`, which is at most 8000
characters long), and any provider error yields the 1536-dimensional zero
vector instead of propagating. -/
theorem C7_truncation_and_zero_fallback (client : Bool)
    (provider : List Char → Except PyErr (List ℚ)) (text : List Char) :
    generate_embedding client provider text
      = generate_embedding client provider (truncated_input text) ∧
    (truncated_input text).length ≤ 8000 ∧
    (∀ e, provider (truncated_input text) = .error e →
      generate_embedding true provider text = .ok zero_embedding) ∧
    zero_embedding.length = 1536 := by
  refine ⟨?_, ?_, ?_, by unfold zero_embedding; rw [List.length_replicate]⟩
  · unfold generate_embedding truncated_input
    rw [List.take_take, min_self]
  · unfold truncated_input
    rw [List.length_take]
    exact min_le_left _ _
  · intro e he
    unfold generate_embedding
    rw [he]
    rfl

/-- Witness for C7 with an always-failing provider. -/
theorem C7_witness :
    generate_embedding true (fun _ => .error .apiError) ['a'] = .ok zero_embedding :=
  (C7_truncation_and_zero_fallback true (fun _ => .error .apiError) ['a']).2.2.1
    .apiError rfl

/-- C3 counterexample: with two stored embeddings carrying identical vectors,
the fallback scan returns tied scores, so its output is not sorted strictly
descending. -/
theorem C3_counterexample :
    ∃ hits, fallback_scan [(1 : ℚ)] [c3_doc_a, c3_doc_b] 5 = .ok hits ∧
      ¬ List.Sorted (fun a b : SearchHit => b.score < a.score) hits := by
  obtain ⟨s, hs⟩ := cosine_similarity_ok [(1 : ℚ)] [(1 : ℚ)] rfl
  have hcs : compute_sims [(1 : ℚ)] [c3_doc_a, c3_doc_b]
      = .ok [{ eid := 0, redacaoId := 1, titulo := none, textoSnippet := [], score := s },
             { eid := 1, redacaoId := 2, titulo := none, textoSnippet := [], score := s }] := by
    simp only [compute_sims, c3_doc_a, c3_doc_b]
    rw [hs]
    rfl
  refine ⟨(List.insertionSort hit_desc
      [{ eid := 0, redacaoId := 1, titulo := none, textoSnippet := [], score := s },
       { eid := 1, redacaoId := 2, titulo := none, textoSnippet := [], score := s }]).take 5,
    by simp only [fallback_scan]; rw [hcs]; rfl, ?_⟩
  intro hsorted
  have hperm : List.Perm (List.insertionSort hit_desc
      [{ eid := 0, redacaoId := 1, titulo := none, textoSnippet := [], score := s },
       { eid := 1, redacaoId := 2, titulo := none, textoSnippet := [], score := s }])
      [{ eid := 0, redacaoId := 1, titulo := none, textoSnippet := [], score := s },
       { eid := 1, redacaoId := 2, titulo := none, textoSnippet := [], score := s }] :=
    List.perm_insertionSort _ _
  have hlen := hperm.length_eq
  have htake := List.take_of_length_le (i := 5)
    (l := List.insertionSort hit_desc
      [{ eid := 0, redacaoId := 1, titulo := none, textoSnippet := [], score := s },
       { eid := 1, redacaoId := 2, titulo := none, textoSnippet := [], score := s }])
    (by rw [hlen]; norm_num)
  rw [htake] at hsorted
  obtain ⟨x, y, hxy⟩ := List.length_eq_two.mp hlen
  have hxmem := (hperm.mem_iff (a := x)).mp (by rw [hxy]; simp)
  have hymem := (hperm.mem_iff (a := y)).mp (by rw [hxy]; simp)
  have hxs : x.score = s := by
    rcases List.mem_pair.mp hxmem with rfl | rfl <;> rfl
  have hys : y.score = s := by
    rcases List.mem_pair.mp hymem with rfl | rfl <;> rfl
  rw [hxy] at hsorted
  have hlt := (List.sorted_cons.mp hsorted).1 y (by simp)
  rw [hxs, hys] at hlt
  exact lt_irrefl s hlt

/-- C3 (amended): for every query vector, stored records whose vectors match
the query's dimension, and limit `k`, the fallback scan succeeds
deterministically (it is a pure function of its arguments), its output is
sorted weakly descending by score, and it returns exactly
`min k (number of stored records)` results.  Strictness fails on ties, as
the counterexample shows. -/
theorem C3_fallback_sorted_and_sized (qv : List ℚ) (docs : List EmbeddingDoc)
    (k : Nat) (hdim : ∀ d ∈ docs, d.vectorEmbedding.length = qv.length) :
    ∃ hits, fallback_scan qv docs k = .ok hits ∧
      List.Sorted hit_desc hits ∧ hits.length = min k docs.length :=
  fallback_scan_ok qv docs k hdim

/-- Witness for C3 on a one-document store with a matching dimension. -/
theorem C3_witness :
    ∃ hits, fallback_scan [(1 : ℚ), 2] [c3_demo_doc] 2 = .ok hits ∧
      List.Sorted hit_desc hits ∧ hits.length = min 2 1 :=
  C3_fallback_sorted_and_sized [(1 : ℚ), 2] [c3_demo_doc] 2
    (by intro d hd; rw [List.mem_singleton] at hd; subst hd; rfl)

/-- C6: after any sequence of `store_redacao_embedding` calls starting from
the empty store, at most one embedding document exists per `redacao_id`; and
any single successful call (configured client) leaves, for its
`redacao_id`, a document carrying exactly this call's vector, snippet
(`texto[:1000]`), title and timestamp — the latest write wins. -/
theorem C6_upsert_unique_latest_wins :
    (∀ (cs : List StoreCall) (d : Nat),
      (run_store_calls empty_store cs).docs.countP (fun r => r.redacaoId == d) ≤ 1) ∧
    (∀ (st : EmbStore) (c : StoreCall), c.client = true →
      ∃ r, (store_redacao_embedding st c).1.docs.find?
            (fun x => x.redacaoId == c.redacaoId) = some r ∧
        r.vectorEmbedding = generate_embedding_vec c.provider c.texto ∧
        r.textoSnippet = c.texto.take 1000 ∧
        r.titulo = c.titulo ∧ r.dataCriacao = c.now) := by
  constructor
  · intro cs d
    exact countP_le_one_of_unique (run_store_unique cs empty_store List.Pairwise.nil) d
  · intro st c hc
    unfold store_redacao_embedding
    rcases hfind : st.docs.find? (fun d => d.redacaoId == c.redacaoId) with _ | e
    · rw [hfind, hc, generate_embedding_true]
      refine ⟨{ eid := st.nextId, redacaoId := c.redacaoId, titulo := c.titulo,
                textoSnippet := c.texto.take 1000,
                vectorEmbedding := generate_embedding_vec c.provider c.texto,
                dataCriacao := c.now }, ?_, rfl, rfl, rfl, rfl⟩
      show (st.docs ++ _).find? _ = _
      rw [find?_append_none hfind]
      exact List.find?_cons_of_pos (p := fun x : EmbeddingDoc => x.redacaoId == c.redacaoId)
        _ (by simp)
    · rw [hfind, hc, generate_embedding_true]
      refine ⟨upsert_fields c (generate_embedding_vec c.provider c.texto) e,
              ?_, rfl, rfl, rfl, rfl⟩
      exact find?_map_update (upsert_fields c (generate_embedding_vec c.provider c.texto))
        (fun d => rfl) hfind

/-- Witness for C6: one concrete successful call on the empty store. -/
theorem C6_witness :
    ∃ r, (store_redacao_embedding empty_store c6_call).1.docs.find?
          (fun x => x.redacaoId == c6_call.redacaoId) = some r ∧
      r.vectorEmbedding = generate_embedding_vec c6_call.provider c6_call.texto ∧
      r.textoSnippet = c6_call.texto.take 1000 ∧
      r.titulo = c6_call.titulo ∧ r.dataCriacao = c6_call.now :=
  C6_upsert_unique_latest_wins.2 empty_store c6_call rfl

/-- C8 counterexample: with no OpenAI client configured, `enrich_with_rag`
raises the `ValueError` of `generate_embedding` instead of returning a
context bundle — the enrichment step can fail the pipeline. -/
theorem C8_counterexample :
    enrich_with_rag false (fun _ => .ok []) c8_db ['a'] = .error .valueError := rfl

/-- C8 (amended): when the OpenAI client is configured and the stored vectors
match the query embedding's dimension, `enrich_with_rag` returns a context
bundle for every text, database state and provider behaviour (provider
failures degrade inside `generate_embedding`, per-hit join failures are
skipped); with no client configured, the `ValueError` propagates, as the
counterexample shows. -/
theorem C8_enrich_ok_when_configured
    (provider : List Char → Except PyErr (List ℚ)) (db : DB) (texto : List Char)
    (hdim : ∀ d ∈ db.embeddings,
      d.vectorEmbedding.length = (generate_embedding_vec provider texto).length) :
    ∃ ctx, enrich_with_rag true provider db texto = .ok ctx := by
  obtain ⟨hits, hvs⟩ := vector_search_ok provider db texto 5 hdim
  rcases henr : enrich_with_rag true provider db texto with e | ctx
  · exfalso
    unfold enrich_with_rag get_similar_redacoes at henr
    rw [hvs] at henr
    exact Except.noConfusion henr
  · exact ⟨ctx, rfl⟩

/-- Witness for C8 on a database with one stored two-dimensional embedding
and a provider returning a two-dimensional vector. -/
theorem C8_witness :
    ∃ ctx, enrich_with_rag true (fun _ => .ok [3, 4]) c8_db2 ['b'] = .ok ctx :=
  C8_enrich_ok_when_configured (fun _ => .ok [3, 4]) c8_db2 ['b']
    (by intro d hd
        simp only [c8_db2, List.mem_singleton] at hd
        subst hd
        rfl)

/-- C9 counterexample: querying `get_similar_redacoes` with the text of
document 42 — the document being processed — returns an entry whose id is 42
itself: the retrieval performs no self-exclusion. -/
theorem C9_counterexample :
    ∃ entries, get_similar_redacoes true (fun _ => .ok [(1 : ℚ)]) c9_db ['x'] 3
        = .ok entries ∧
      entries.map (fun e => e.sid) = [42] := by
  obtain ⟨s, hs⟩ := cosine_similarity_ok [(1 : ℚ)] [(1 : ℚ)] rfl
  refine ⟨[{ sid := 42, titulo := "t", textoSnippet := [],
             similarityScore := s, analise := none }], ?_, rfl⟩
  have hcs : compute_sims [(1 : ℚ)] c9_db.embeddings
      = .ok [{ eid := 0, redacaoId := 42, titulo := none, textoSnippet := [],
               score := s }] := by
    simp only [c9_db, compute_sims]
    rw [hs]
    rfl
  unfold get_similar_redacoes vector_search fallback_scan
  rw [show generate_embedding true (fun _ => .ok [(1 : ℚ)]) ['x'] = .ok [(1 : ℚ)] from rfl,
    except_ok_bind]
  show Except.bind (Except.bind (compute_sims [(1 : ℚ)] c9_db.embeddings) _) _ = _
  rw [hcs]
  rfl

/-- C9 (amended): the only self-exclusion in the repository is the assembly
filter of api/main.py lines 244-253 (dead code): every context entry it
produces derives from a similar hit whose id is present and different from
the processed document's id; the `rag_manager` retrieval itself
(`get_similar_redacoes`) performs no exclusion, as the counterexample
shows. -/
theorem C9_assembly_filter_excludes (redacaoId : Nat)
    (findAnalise : Nat → Option Analise) (sims : List SimilarRaw) (c : CtxEntry)
    (hc : c ∈ contexto_adicional_from redacaoId findAnalise sims) :
    ∃ i a, i ≠ redacaoId ∧ some i ∈ sims.map (fun s => s.sid) ∧
      findAnalise i = some a ∧
      c = { nota := a.notaGeral, resumo := a.resumoExecutivo,
            pontosFortes := a.pontosFortes } := by
  induction sims with
  | nil => simp [contexto_adicional_from] at hc
  | cons s rest ih =>
    rw [contexto_adicional_from] at hc
    split at hc
    · obtain ⟨i, a, hi, hmem, ha, hcc⟩ := ih hc
      exact ⟨i, a, hi, by simp [hmem], ha, hcc⟩
    · rename_i i hsid
      split at hc
      · rename_i hne
        split at hc
        · rename_i hfa
          rcases List.mem_cons.mp hc with rfl | hc'
          · exact ⟨i, _, hne, by simp [hsid], hfa, rfl⟩
          · obtain ⟨j, a', hj, hmem, ha', hcc⟩ := ih hc'
            exact ⟨j, a', hj, by simp [hmem], ha', hcc⟩
        · obtain ⟨j, a, hj, hmem, ha, hcc⟩ := ih hc
          exact ⟨j, a, hj, by simp [hmem], ha, hcc⟩
      · obtain ⟨j, a, hj, hmem, ha, hcc⟩ := ih hc
        exact ⟨j, a, hj, by simp [hmem], ha, hcc⟩

/-- Witness for C9's amended theorem at a concrete hit list. -/
theorem C9_witness :
    ∃ i a, i ≠ 1 ∧
      some i ∈ [({ sid := some 2 } : SimilarRaw)].map (fun s => s.sid) ∧
      (fun j => if j == 2 then some c9_analise else none) i = some a ∧
      ({ nota := 9, resumo := "r", pontosFortes := ["p"] } : CtxEntry)
        = { nota := a.notaGeral, resumo := a.resumoExecutivo,
            pontosFortes := a.pontosFortes } :=
  C9_assembly_filter_excludes 1 (fun j => if j == 2 then some c9_analise else none)
    [({ sid := some 2 } : SimilarRaw)]
    { nota := 9, resumo := "r", pontosFortes := ["p"] }
    (by simp [contexto_adicional_from, c9_analise])

end RagThiago
